import Mathlib

/-!
Verification of the movie-listing service.

This file is a shallow embedding of the service's data model and request
handlers over list-backed relational state:

* `src/app/models.py` — the four tables (User, Movie, Rating, Comment), their
  unique constraints, nullable foreign keys, and the self-referential
  `replies` relationship of Comment declared with
  `cascade="all, delete-orphan"`;
* `src/app/auth.py` — password hashing, token issue (`create_access_token`),
  and the `/auth/register/` and `/auth/login/` endpoints, including the
  `try/except Exception` wrapper each endpoint body runs under (an
  `HTTPException` raised inside the body is caught by that wrapper and
  re-raised as a 500);
* `src/app/main.py` — `get_current_user` and the movie/rating/comment
  endpoints mounted on the application (`main.py` mounts only the auth
  router; the routers package is unmounted);
* `src/app/routers/movies.py` and `src/app/routers/users.py` — the router
  variants of the handlers, embedded where a claim cites them.

Each handler is a pure function from the store (and, where the handler reads
the clock, the current time in Unix seconds) to an `Except`-style response
plus the successor store.  External collaborators (bcrypt, the JWT library,
the SQL engine) are modelled by their contracts: hashing is an abstract
injection with a matching verifier, a JWT is a payload plus a recomputable
signature over the server secret, a SQL `UPDATE`/`DELETE` acts on the rows
whose primary key matches, and a `commit` that violates a declared unique
constraint fails (SQLAlchemy reports `IntegrityError`).  Deleting a parent
row whose relationship declares no delete cascade de-associates the loaded
children by setting their foreign key to NULL (SQLAlchemy's default), while
the `all, delete-orphan` cascade of `Comment.replies` deletes the reply
subtree breadth-first.
-/

namespace MovieApi

/-- The payload of FastAPI's `HTTPException`: a status code and a detail
string. -/
structure HTTPEx where
  status : Nat
  detail : String
deriving Repr, DecidableEq

/-- A row of the `users` table (`src/app/models.py`): `username` and `email`
carry unique constraints. -/
structure User where
  id : Nat
  username : String
  email : String
  full_name : String
  hashed_password : String
  disabled : Bool
deriving Repr, DecidableEq

/-- A row of the `movies` table (`src/app/models.py`). -/
structure Movie where
  id : Nat
  title : String
  description : String
  release_year : Int
  owner_id : Nat
deriving Repr, DecidableEq

/-- A row of the `ratings` table (`src/app/models.py`): `movie_id` is a
nullable foreign key (no `nullable=False` in the column declaration), so it
is an `Option`. -/
structure Rating where
  id : Nat
  movie_id : Option Nat
  rating : Int
  user_id : Nat
deriving Repr, DecidableEq

/-- A row of the `comments` table (`src/app/models.py`): `movie_id` and the
self-referential `parent_id` are nullable foreign keys. -/
structure Comment where
  id : Nat
  movie_id : Option Nat
  text : String
  user_id : Nat
  parent_id : Option Nat
deriving Repr, DecidableEq

/-- The relational store: the four tables. -/
structure Store where
  users : List User
  movies : List Movie
  ratings : List Rating
  comments : List Comment
deriving Repr, DecidableEq

/-! ### Identity and credentials (`src/app/auth.py`) -/

def SECRET_KEY : String := "your_secret_key"

def ACCESS_TOKEN_EXPIRE_MINUTES : Nat := 30

/-- Model of `pwd_context.hash` (bcrypt is an external collaborator): an
injective tagging of the password, paired with `verify_password` below. -/
def get_password_hash (password : String) : String :=
  "bcrypt$" ++ password

/-- Model of `pwd_context.verify`: a password verifies against exactly the
hash produced from it. -/
def verify_password (plain_password hashed_password : String) : Bool :=
  hashed_password == get_password_hash plain_password

/-- The claims a token of this service carries: `sub` (set from the username
at issue time) and the expiry timestamp `exp` in Unix seconds. -/
structure JwtPayload where
  sub : Option String
  exp : Nat
deriving Repr, DecidableEq

/-- A signed token: the payload plus the signature over it. -/
structure Token where
  payload : JwtPayload
  sig : String
deriving Repr, DecidableEq

/-- Model of the JWT signature (the signing library is an external
collaborator): a recomputable function of the key and the payload; a
verifier accepts exactly when recomputation matches. -/
def jwtSign (key : String) (p : JwtPayload) : String :=
  key ++ "#" ++ p.sub.getD "" ++ "#" ++ toString p.exp

/-- `jwt.encode(payload, key)`. -/
def jwt_encode (p : JwtPayload) (key : String) : Token :=
  { payload := p, sig := jwtSign key p }

/-- `jwt.decode(token, key)` at time `now`: the signature is verified first,
then the `exp` claim (with zero leeway, the token is expired exactly when
`exp < now`).  Both failures raise `JWTError`. -/
def jwt_decode (t : Token) (key : String) (now : Nat) : Except String JwtPayload :=
  if t.sig ≠ jwtSign key t.payload then
    Except.error "Signature verification failed."
  else if t.payload.exp < now then
    Except.error "Signature has expired."
  else
    Except.ok t.payload

/-- `create_access_token` (`src/app/auth.py` lines 40-45): expiry is `now`
plus the given delta, 15 minutes when no delta is passed. -/
def create_access_token (now : Nat) (sub : String) (expires_delta : Option Nat) : Token :=
  jwt_encode { sub := some sub, exp := now + expires_delta.getD (15 * 60) } SECRET_KEY

/-- The request body of `/auth/register/` and `/auth/login/` (both endpoints
take the `UserCreate` model). -/
structure UserCreate where
  username : String
  email : String
  password : String
deriving Repr, DecidableEq

/-- The response body of a successful registration. -/
structure RegisterResponse where
  username : String
  email : String
deriving Repr, DecidableEq

/-- The response body of a successful login. -/
structure LoginResponse where
  access_token : Token
  token_type : String
deriving Repr, DecidableEq

/-- The autoincrement primary key the database assigns to a fresh `users`
row. -/
def nextUserId (db : Store) : Nat :=
  db.users.foldl (fun a u => max a u.id) 0 + 1

/-- The body of the `try` block of `register_user` (`src/app/auth.py` lines
50-76): two independent uniqueness pre-checks (username, then email), each
raising a 400, then hash-and-insert. -/
def register_user_body (db : Store) (user : UserCreate) :
    Except HTTPEx (RegisterResponse × Store) :=
  match db.users.find? (fun x => x.username == user.username) with
  | some _ => Except.error ⟨400, "Username already registered"⟩
  | none =>
    match db.users.find? (fun x => x.email == user.email) with
    | some _ => Except.error ⟨400, "Email already registered"⟩
    | none =>
      let new_user : User :=
        { id := nextUserId db
          username := user.username
          email := user.email
          full_name := ""
          hashed_password := get_password_hash user.password
          disabled := false }
      Except.ok ({ username := user.username, email := user.email },
        { db with users := db.users ++ [new_user] })

/-- `register_user` (`src/app/auth.py` lines 48-80): the body runs inside
`try: ... except Exception: raise HTTPException(500)`.  FastAPI's
`HTTPException` is an `Exception`, so the 400 raised by a failed uniqueness
check is caught by the wrapper and surfaces as a 500.  On any error the
store is unchanged (the failed body never reached `commit`). -/
def register_user (db : Store) (user : UserCreate) :
    Except HTTPEx RegisterResponse × Store :=
  match register_user_body db user with
  | Except.ok (r, db2) => (Except.ok r, db2)
  | Except.error _ => (Except.error ⟨500, "Internal Server Error"⟩, db)

/-- The body of the `try` block of `login` (`src/app/auth.py` lines 86-99):
unknown username or failed verification raise a 401; otherwise a token with
a 30-minute expiry is issued for the stored username. -/
def login_body (db : Store) (now : Nat) (user : UserCreate) :
    Except HTTPEx LoginResponse :=
  match db.users.find? (fun x => x.username == user.username) with
  | none => Except.error ⟨401, "Invalid username or password"⟩
  | some db_user =>
    if verify_password user.password db_user.hashed_password then
      Except.ok
        { access_token :=
            create_access_token now db_user.username
              (some (ACCESS_TOKEN_EXPIRE_MINUTES * 60))
          token_type := "bearer" }
    else
      Except.error ⟨401, "Invalid username or password"⟩

/-- `login` (`src/app/auth.py` lines 83-103): like `register_user`, the body
runs under `except Exception`, so the 401 it raises surfaces as a 500. -/
def login (db : Store) (now : Nat) (user : UserCreate) :
    Except HTTPEx LoginResponse :=
  match login_body db now user with
  | Except.ok r => Except.ok r
  | Except.error _ => Except.error ⟨500, "Internal Server Error"⟩

/-! ### Token resolution (`src/app/main.py` lines 40-56) -/

/-- The 401 `get_current_user` raises for any token it cannot resolve. -/
def credentials_exception : HTTPEx :=
  ⟨401, "Could not validate credentials"⟩

/-- `get_current_user`: decode the token (signature, then expiry), read the
`sub` claim, and look the username up; every failure is the same 401. -/
def get_current_user (db : Store) (now : Nat) (token : Token) :
    Except HTTPEx User :=
  match jwt_decode token SECRET_KEY now with
  | Except.error _ => Except.error credentials_exception
  | Except.ok payload =>
    match payload.sub with
    | none => Except.error credentials_exception
    | some username =>
      match db.users.find? (fun u => u.username == username) with
      | none => Except.error credentials_exception
      | some user => Except.ok user

/-! ### Movie endpoints (`src/app/main.py` lines 98-157) -/

/-- The request body of movie creation and update. -/
structure MovieCreate where
  title : String
  description : String
  release_year : Int
deriving Repr, DecidableEq

/-- The effect of the SQL `UPDATE movies SET ... WHERE id = movie_id` that a
successful `update_movie` commits: the row whose primary key matches gets
the three mutable fields overwritten, every other row is untouched. -/
def applyMovieUpdate (movie : MovieCreate) (movie_id : Nat) (m : Movie) : Movie :=
  if m.id == movie_id then
    { m with
      title := movie.title
      description := movie.description
      release_year := movie.release_year }
  else m

/-- `update_movie` (`src/app/main.py` lines 118-138): 404 when the id is not
found, 403 when the requester is not the owner, otherwise overwrite the
mutable fields (title, description, release_year) and return the refreshed
row. -/
def update_movie (db : Store) (movie_id : Nat) (movie : MovieCreate)
    (current_user : User) : Except HTTPEx Movie × Store :=
  match db.movies.find? (fun m => m.id == movie_id) with
  | none => (Except.error ⟨404, "Movie not found"⟩, db)
  | some db_movie =>
    if db_movie.owner_id ≠ current_user.id then
      (Except.error ⟨403, "Not authorized to update this movie"⟩, db)
    else
      (Except.ok (applyMovieUpdate movie movie_id db_movie),
        { db with movies := db.movies.map (applyMovieUpdate movie movie_id) })

/-- `update_movie` of the unmounted router (`src/app/routers/movies.py`
lines 76-100): same logic, but the body runs under `except Exception`, so
the 404 and 403 it raises surface as 500s. -/
def update_movie_router (db : Store) (movie_id : Nat) (movie : MovieCreate)
    (current_user : User) : Except HTTPEx Movie × Store :=
  match update_movie db movie_id movie current_user with
  | (Except.ok r, db2) => (Except.ok r, db2)
  | (Except.error _, db2) => (Except.error ⟨500, "Internal Server Error"⟩, db2)

/-- `delete_movie` (`src/app/main.py` lines 141-157): 404 when the id is not
found, 403 when the requester is not the owner, otherwise
`session.delete(db_movie)` followed by `commit`.  The `ratings` and
`comments` relationships of `Movie` declare no delete cascade, so the commit
deletes only the movie row and de-associates the dependent rows: each
`Rating`/`Comment` whose `movie_id` referenced the deleted movie gets its
(nullable) foreign key set to NULL; the rows themselves stay. -/
def delete_movie (db : Store) (movie_id : Nat) (current_user : User) :
    Except HTTPEx String × Store :=
  match db.movies.find? (fun m => m.id == movie_id) with
  | none => (Except.error ⟨404, "Movie not found"⟩, db)
  | some db_movie =>
    if db_movie.owner_id ≠ current_user.id then
      (Except.error ⟨403, "Not authorized to delete this movie"⟩, db)
    else
      (Except.ok "Movie deleted",
        { db with
          movies := db.movies.filter (fun m => m.id != movie_id)
          ratings := db.ratings.map (fun r =>
            if r.movie_id == some movie_id then { r with movie_id := none } else r)
          comments := db.comments.map (fun c =>
            if c.movie_id == some movie_id then { c with movie_id := none } else c) })

/-! ### Rating endpoints (`src/app/main.py` lines 160-182 and
`src/app/routers/movies.py` lines 126-161) -/

/-- The request body of `POST /ratings/`. -/
structure RatingCreate where
  movie_id : Nat
  rating : Int
deriving Repr, DecidableEq

/-- The autoincrement primary key of a fresh `ratings` row. -/
def nextRatingId (db : Store) : Nat :=
  db.ratings.foldl (fun a r => max a r.id) 0 + 1

/-- The row `rate_movie` inserts for a request by `current_user`. -/
def newRating (db : Store) (rc : RatingCreate) (current_user : User) : Rating :=
  { id := nextRatingId db
    movie_id := some rc.movie_id
    rating := rc.rating
    user_id := current_user.id }

/-- `rate_movie` (`src/app/main.py` lines 160-175), the mounted
`POST /ratings/` endpoint: inserts the rating row with no check that the
referenced movie exists. -/
def rate_movie (db : Store) (rc : RatingCreate) (current_user : User) :
    Except HTTPEx Rating × Store :=
  let db_rating := newRating db rc current_user
  (Except.ok db_rating, { db with ratings := db.ratings ++ [db_rating] })

/-- `rate_movie` of the unmounted router (`src/app/routers/movies.py` lines
126-150): checks that the movie exists and raises a 404 otherwise — but the
body runs under `except Exception`, so the 404 surfaces as a 500; no row is
inserted in that case. -/
def rate_movie_router (db : Store) (movie_id : Nat) (rating : Int)
    (current_user : User) : Except HTTPEx Rating × Store :=
  match db.movies.find? (fun m => m.id == movie_id) with
  | none => (Except.error ⟨500, "Internal Server Error"⟩, db)
  | some _ =>
    let db_rating := newRating db ⟨movie_id, rating⟩ current_user
    (Except.ok db_rating, { db with ratings := db.ratings ++ [db_rating] })

/-- `get_movie_ratings` (`src/app/main.py` lines 178-182): filter the
ratings table by `movie_id` and return the list; there is no movie
existence check and no error path. -/
def get_movie_ratings (db : Store) (movie_id : Nat) : List Rating :=
  db.ratings.filter (fun r => r.movie_id == some movie_id)

/-- `get_movie_comments` (`src/app/main.py` lines 204-208): filter the
comments table by `movie_id`; no existence check, no error path. -/
def get_movie_comments (db : Store) (movie_id : Nat) : List Comment :=
  db.comments.filter (fun c => c.movie_id == some movie_id)

/-! ### User self-update (`src/app/routers/users.py` lines 24-40) -/

/-- The request body of `PUT /users/me`. -/
structure UserUpdate where
  username : String
  email : String
deriving Repr, DecidableEq

/-- Whether committing `current_user`'s new username/email violates a unique
constraint of the `users` table (`src/app/models.py` declares
`username` and `email` with `unique=True`): some other row already holds
either value. -/
def selfUpdateConflicts (db : Store) (current_user : User) (uu : UserUpdate) : Bool :=
  db.users.any (fun x =>
    x.id != current_user.id && (x.username == uu.username || x.email == uu.email))

/-- `update_user_me`: the handler sets the two fields and commits with no
application-level uniqueness re-check.  When the new values collide with
another row, the commit violates a unique constraint and fails
(`IntegrityError`), the body's `except Exception` turns that into a 500, and
the row is not updated; otherwise the commit succeeds. -/
def update_user_me (db : Store) (current_user : User) (uu : UserUpdate) :
    Except HTTPEx User × Store :=
  if selfUpdateConflicts db current_user uu then
    (Except.error ⟨500, "Internal Server Error"⟩, db)
  else
    (Except.ok { current_user with username := uu.username, email := uu.email },
      { db with users := db.users.map (fun x =>
          if x.id == current_user.id then
            { x with username := uu.username, email := uu.email }
          else x) })

/-! ### Comment cascade delete (`src/app/models.py` lines 40-51)

`Comment.replies` is the self-referential relationship with
`cascade="all, delete-orphan"`: `session.delete(c)` deletes `c`'s row and
walks the loaded `replies` collections, deleting the entire reply subtree.
The walk is a breadth-first expansion: starting from the deleted comment's
id, every comment whose `parent_id` is a deleted id is deleted in turn. -/

/-- Whether `d` is a direct reply to one of the comments whose ids are in
`roots`. -/
def childOf (roots : List Nat) (d : Comment) : Bool :=
  match d.parent_id with
  | some p => roots.contains p
  | none => false

/-- One breadth-first cascade pass per unit of fuel: remove the direct
replies of `roots` and recurse with their ids added, until a pass finds no
reply.  Each productive pass strictly shrinks the list, so fuel equal to the
list's length reaches the fixed point. -/
def cascadeDeleteFuel : Nat → List Comment → List Nat → List Comment
  | 0, cs, _ => cs
  | fuel + 1, cs, roots =>
    if (cs.filter (childOf roots)).isEmpty then
      cs.filter (fun d => !childOf roots d)
    else
      cascadeDeleteFuel fuel (cs.filter (fun d => !childOf roots d))
        (roots ++ (cs.filter (childOf roots)).map (fun c => c.id))

/-- The cascade expansion run to its fixed point. -/
def cascadeDelete (cs : List Comment) (roots : List Nat) : List Comment :=
  cascadeDeleteFuel cs.length cs roots

/-- `session.delete(c)` on a comment, with the declared cascade: the row
with `c`'s primary key is deleted and the cascade removes the reply
subtree. -/
def delete_comment (db : Store) (c : Comment) : Store :=
  { db with
    comments := cascadeDelete (db.comments.filter (fun d => d.id != c.id)) [c.id] }

/-- The reply subtree: `InReplySubtree cs roots d` holds when `d ∈ cs` is
reachable from a comment id in `roots` by following `parent_id` links
downward (a direct reply of a root, or a reply of a comment already in the
subtree). -/
inductive InReplySubtree (cs : List Comment) (roots : List Nat) : Comment → Prop where
  | base {d : Comment} : d ∈ cs → (∃ r ∈ roots, d.parent_id = some r) →
      InReplySubtree cs roots d
  | step {p d : Comment} : InReplySubtree cs roots p → d ∈ cs →
      d.parent_id = some p.id → InReplySubtree cs roots d

/-! ### Concrete fixtures used by the closed theorems and witnesses -/

instance {ε α : Type} [DecidableEq ε] [DecidableEq α] : DecidableEq (Except ε α) := fun a b =>
  match a, b with
  | Except.ok x, Except.ok y =>
    if h : x = y then isTrue (by rw [h]) else isFalse (by intro hc; cases hc; exact h rfl)
  | Except.error x, Except.error y =>
    if h : x = y then isTrue (by rw [h]) else isFalse (by intro hc; cases hc; exact h rfl)
  | Except.ok _, Except.error _ => isFalse (by intro hc; cases hc)
  | Except.error _, Except.ok _ => isFalse (by intro hc; cases hc)

/-- The empty store. -/
def emptyStore : Store := ⟨[], [], [], []⟩

/-- The registration request of the spec's running example. -/
def regAlice : UserCreate := ⟨"al", "al@x", "pw1"⟩

/-- The store after the first successful registration. -/
def storeAlice : Store := (register_user emptyStore regAlice).2

/-- The user row the first registration creates. -/
def rowAlice : User := ⟨1, "al", "al@x", "", get_password_hash "pw1", false⟩

/-- A second user row, for the self-update counterexample. -/
def rowBob : User := ⟨2, "bo", "bo@x", "", get_password_hash "pw2", false⟩

/-- Two users, for the self-update counterexample. -/
def storeTwoUsers : Store := ⟨[rowAlice, rowBob], [], [], []⟩

/-- A movie owned by `rowAlice`. -/
def movieOne : Movie := ⟨1, "t", "d", 2000, 1⟩

/-- A rating of `movieOne` by `rowBob`. -/
def ratingOne : Rating := ⟨1, some 1, 5, 2⟩

/-- A comment on `movieOne` by `rowBob`. -/
def commentOnMovie : Comment := ⟨1, some 1, "c", 2, none⟩

/-- A store with one movie carrying a rating and a comment. -/
def storeMovieRated : Store := ⟨[rowAlice, rowBob], [movieOne], [ratingOne], [commentOnMovie]⟩

/-- `movieOne` after the update request `⟨"t2", "d2", 2001⟩`. -/
def updatedMovieOne : Movie := ⟨1, "t2", "d2", 2001, 1⟩

/-- `storeMovieRated` after that update. -/
def storeMovieUpdated : Store := { storeMovieRated with movies := [updatedMovieOne] }

/-- A three-comment thread on movie 1: `threadRoot` is answered by
`threadReply`, which is answered by `threadLeaf`. -/
def threadRoot : Comment := ⟨1, some 1, "a", 1, none⟩

/-- Direct reply to `threadRoot`. -/
def threadReply : Comment := ⟨2, some 1, "b", 2, some 1⟩

/-- Reply to `threadReply`: in `threadRoot`'s subtree only transitively. -/
def threadLeaf : Comment := ⟨3, some 1, "c", 1, some 2⟩

/-- A store carrying the three-comment thread. -/
def storeThread : Store := ⟨[rowAlice, rowBob], [movieOne], [], [threadRoot, threadReply, threadLeaf]⟩

/-- A store with users but no movies, for the missing-movie rating
counterexample. -/
def storeNoMovies : Store := ⟨[rowAlice], [], [], []⟩

/-- A store whose only rating and comment reference movie 2, for the
empty-listing witness on movie 1. -/
def storeOtherRated : Store :=
  ⟨[rowAlice], [], [⟨1, some 2, 4, 1⟩], [⟨1, some 2, "c", 1, none⟩]⟩

/-! ## Theorems -/

/-- Claim C1 (code bug): registering a username or email a second time is
refused by the two independent uniqueness checks of `register_user` and the
store is unchanged, but the endpoint does not answer 400 Conflict as the
spec states: the body's `HTTPException(400)` is caught by the handler's own
`except Exception` and surfaces as a 500.  The body raises the intended 400
for each of the two checks; the endpoint returns 500 in both cases, with the
user store unchanged. -/
theorem register_duplicate_masked_as_500 :
    (register_user emptyStore regAlice).1 =
      Except.ok { username := "al", email := "al@x" } ∧
    storeAlice.users = [rowAlice] ∧
    register_user_body storeAlice ⟨"al", "zz@x", "pw2"⟩ =
      Except.error ⟨400, "Username already registered"⟩ ∧
    register_user_body storeAlice ⟨"zz", "al@x", "pw2"⟩ =
      Except.error ⟨400, "Email already registered"⟩ ∧
    register_user storeAlice ⟨"al", "zz@x", "pw2"⟩ =
      (Except.error ⟨500, "Internal Server Error"⟩, storeAlice) ∧
    register_user storeAlice ⟨"zz", "al@x", "pw2"⟩ =
      (Except.error ⟨500, "Internal Server Error"⟩, storeAlice) := by
  exact ⟨rfl, rfl, rfl, rfl, rfl, rfl⟩

/-- Claim C2 (code bug): a login with an unknown username or a wrong
password is refused — the body raises the same 401 in both cases, so the
response does not reveal whether the username exists — and a correct login
returns a bearer token.  But the 401 is caught by the handler's own
`except Exception` and the endpoint surfaces a 500 instead of the 401 the
spec states. -/
theorem login_unauthorized_masked_as_500 :
    login_body storeAlice 0 ⟨"al", "", "bad"⟩ =
      Except.error ⟨401, "Invalid username or password"⟩ ∧
    login_body storeAlice 0 ⟨"zz", "", "pw1"⟩ =
      Except.error ⟨401, "Invalid username or password"⟩ ∧
    login storeAlice 0 ⟨"al", "", "bad"⟩ =
      Except.error ⟨500, "Internal Server Error"⟩ ∧
    login storeAlice 0 ⟨"zz", "", "pw1"⟩ =
      Except.error ⟨500, "Internal Server Error"⟩ ∧
    (∃ resp : LoginResponse,
      login storeAlice 0 ⟨"al", "", "pw1"⟩ = Except.ok resp ∧
      resp.token_type = "bearer") := by
  exact ⟨rfl, rfl, rfl, rfl, ⟨_, rfl, rfl⟩⟩

/-- Claim C3 (confirmed): a token issued by a successful login at time `T`
carries expiry `T` plus 30 minutes; `get_current_user` accepts it (resolving
the logged-in user) at every time strictly before the expiry and answers 401
at every time strictly after it, against any store; and any token whose
signature does not verify against the server secret is always rejected. -/
theorem token_accepted_before_expiry_rejected_after (db : Store) (cred : UserCreate)
    (T : Nat) (u : User)
    (hu : db.users.find? (fun x => x.username == cred.username) = some u)
    (hv : verify_password cred.password u.hashed_password = true) :
    ∃ resp : LoginResponse,
      login db T cred = Except.ok resp ∧ resp.token_type = "bearer" ∧
      (∀ now : Nat, now < T + ACCESS_TOKEN_EXPIRE_MINUTES * 60 →
        get_current_user db now resp.access_token = Except.ok u) ∧
      (∀ (db2 : Store) (now : Nat), T + ACCESS_TOKEN_EXPIRE_MINUTES * 60 < now →
        get_current_user db2 now resp.access_token = Except.error credentials_exception) ∧
      (∀ t : Token, t.sig ≠ jwtSign SECRET_KEY t.payload →
        ∀ (db2 : Store) (now : Nat),
          get_current_user db2 now t = Except.error credentials_exception) := by
  have hname : u.username = cred.username := by
    have := List.find?_some hu
    simpa using this
  refine ⟨⟨create_access_token T u.username
    (some (ACCESS_TOKEN_EXPIRE_MINUTES * 60)), "bearer"⟩, ?_, rfl, ?_, ?_, ?_⟩
  · simp [login, login_body, hu, hv]
  · intro now hnow
    have hexp : ¬ (T + ACCESS_TOKEN_EXPIRE_MINUTES * 60 < now) := by omega
    simp [login, login_body, hu, hv, get_current_user, jwt_decode,
      create_access_token, jwt_encode, hexp, hname, hu]
  · intro db2 now hnow
    simp [login, login_body, hu, hv, get_current_user, jwt_decode,
      create_access_token, jwt_encode, hnow]
  · intro t ht db2 now
    simp [get_current_user, jwt_decode, ht]

/-- Witness for claim C3: a concrete one-user store, login at time 0; the
issued token resolves before 1800 seconds, is rejected after, and bad
signatures are always rejected. -/
theorem token_accepted_before_expiry_rejected_after_witness :
    ∃ resp : LoginResponse,
      login storeAlice 0 regAlice = Except.ok resp ∧ resp.token_type = "bearer" ∧
      (∀ now : Nat, now < 0 + ACCESS_TOKEN_EXPIRE_MINUTES * 60 →
        get_current_user storeAlice now resp.access_token = Except.ok rowAlice) ∧
      (∀ (db2 : Store) (now : Nat), 0 + ACCESS_TOKEN_EXPIRE_MINUTES * 60 < now →
        get_current_user db2 now resp.access_token = Except.error credentials_exception) ∧
      (∀ t : Token, t.sig ≠ jwtSign SECRET_KEY t.payload →
        ∀ (db2 : Store) (now : Nat),
          get_current_user db2 now t = Except.error credentials_exception) :=
  token_accepted_before_expiry_rejected_after storeAlice regAlice 0 rowAlice
    (by decide) (by decide)

/-- Claim C4 (confirmed): for every movie update or delete request by an
authenticated user — when no movie has the id, both operations answer 404
and leave the store unchanged; when the movie exists but the requester is
not its owner, both answer 403 and leave the store unchanged; when the
requester is the owner, the update overwrites exactly the mutable fields
(title, description, release_year) of the row with that id, and the delete
removes the movie (no movie with that id remains). -/
theorem movie_update_delete_authorization (db : Store) (movie_id : Nat)
    (payload : MovieCreate) (requester : User) :
    match db.movies.find? (fun m => m.id == movie_id) with
    | none =>
      update_movie db movie_id payload requester =
        (Except.error ⟨404, "Movie not found"⟩, db) ∧
      delete_movie db movie_id requester =
        (Except.error ⟨404, "Movie not found"⟩, db)
    | some dm =>
      if dm.owner_id = requester.id then
        update_movie db movie_id payload requester =
          (Except.ok (applyMovieUpdate payload movie_id dm),
            { db with movies := db.movies.map (applyMovieUpdate payload movie_id) }) ∧
        (delete_movie db movie_id requester).1 = Except.ok "Movie deleted" ∧
        (∀ m ∈ (delete_movie db movie_id requester).2.movies, m.id ≠ movie_id)
      else
        update_movie db movie_id payload requester =
          (Except.error ⟨403, "Not authorized to update this movie"⟩, db) ∧
        delete_movie db movie_id requester =
          (Except.error ⟨403, "Not authorized to delete this movie"⟩, db) := by
  cases hf : db.movies.find? (fun m => m.id == movie_id) with
  | none => exact ⟨by simp [update_movie, hf], by simp [delete_movie, hf]⟩
  | some dm =>
    by_cases ho : dm.owner_id = requester.id
    · simp only [ho, if_pos rfl]
      refine ⟨by simp [update_movie, hf, ho], by simp [delete_movie, hf, ho], ?_⟩
      intro m hm
      have hm' : m ∈ db.movies.filter (fun m => m.id != movie_id) := by
        simpa [delete_movie, hf, ho] using hm
      have := List.of_mem_filter hm'
      simpa using this
    · simp only [if_neg ho]
      exact ⟨by simp [update_movie, hf, ho], by simp [delete_movie, hf, ho]⟩

/-- Claim C10 (confirmed): a successful movie update acts on the store as
the `UPDATE ... WHERE id = movie_id` of exactly the three mutable fields:
the returned row is the targeted movie with only title, description and
release_year replaced (id and owner_id kept), movies with a different id are
untouched, the users, ratings and comments tables are untouched, and the
unmounted router variant of the handler produces the same result. -/
theorem movie_update_frame (db : Store) (movie_id : Nat) (payload : MovieCreate)
    (requester : User) (upd : Movie) (db2 : Store)
    (h : update_movie db movie_id payload requester = (Except.ok upd, db2)) :
    db2.users = db.users ∧ db2.ratings = db.ratings ∧ db2.comments = db.comments ∧
    db2.movies = db.movies.map (applyMovieUpdate payload movie_id) ∧
    upd.title = payload.title ∧ upd.description = payload.description ∧
    upd.release_year = payload.release_year ∧
    (∃ dm ∈ db.movies, dm.id = movie_id ∧ upd.id = dm.id ∧
      upd.owner_id = dm.owner_id) ∧
    (∀ m : Movie, m.id ≠ movie_id → applyMovieUpdate payload movie_id m = m) ∧
    (∀ m : Movie, (applyMovieUpdate payload movie_id m).id = m.id ∧
      (applyMovieUpdate payload movie_id m).owner_id = m.owner_id) ∧
    update_movie_router db movie_id payload requester = (Except.ok upd, db2) := by
  have hid : ∀ m : Movie, (applyMovieUpdate payload movie_id m).id = m.id ∧
      (applyMovieUpdate payload movie_id m).owner_id = m.owner_id := by
    intro m
    by_cases hm : m.id = movie_id <;> simp [applyMovieUpdate, hm]
  have hother : ∀ m : Movie, m.id ≠ movie_id → applyMovieUpdate payload movie_id m = m := by
    intro m hm
    simp [applyMovieUpdate, hm]
  cases hf : db.movies.find? (fun m => m.id == movie_id) with
  | none => simp [update_movie, hf] at h
  | some dm =>
    by_cases ho : dm.owner_id = requester.id
    · have hdm : dm.id = movie_id := by simpa using List.find?_some hf
      have hmem : dm ∈ db.movies := List.mem_of_find?_eq_some hf
      have h' : update_movie db movie_id payload requester =
          (Except.ok (applyMovieUpdate payload movie_id dm),
            { db with movies := db.movies.map (applyMovieUpdate payload movie_id) }) := by
        simp [update_movie, hf, ho]
      rw [h'] at h
      simp only [Prod.mk.injEq, Except.ok.injEq] at h
      obtain ⟨hupd, hdb2⟩ := h
      subst hupd
      subst hdb2
      refine ⟨rfl, rfl, rfl, rfl, ?_, ?_, ?_, ⟨dm, hmem, hdm, (hid dm).1, (hid dm).2⟩,
        hother, hid, ?_⟩
      · simp [applyMovieUpdate, hdm]
      · simp [applyMovieUpdate, hdm]
      · simp [applyMovieUpdate, hdm]
      · rw [update_movie_router, h']
    · simp [update_movie, hf, ho] at h

/-- Witness for claim C10: the owner updates the one rated movie of
`storeMovieRated`; only the movie's three mutable fields change and every
other table is untouched. -/
theorem movie_update_frame_witness :
    storeMovieUpdated.users = storeMovieRated.users ∧
    storeMovieUpdated.ratings = storeMovieRated.ratings ∧
    storeMovieUpdated.comments = storeMovieRated.comments ∧
    storeMovieUpdated.movies =
      storeMovieRated.movies.map (applyMovieUpdate ⟨"t2", "d2", 2001⟩ 1) ∧
    updatedMovieOne.title = "t2" ∧ updatedMovieOne.description = "d2" ∧
    updatedMovieOne.release_year = 2001 ∧
    (∃ dm ∈ storeMovieRated.movies, dm.id = 1 ∧ updatedMovieOne.id = dm.id ∧
      updatedMovieOne.owner_id = dm.owner_id) ∧
    (∀ m : Movie, m.id ≠ 1 → applyMovieUpdate ⟨"t2", "d2", 2001⟩ 1 m = m) ∧
    (∀ m : Movie, (applyMovieUpdate ⟨"t2", "d2", 2001⟩ 1 m).id = m.id ∧
      (applyMovieUpdate ⟨"t2", "d2", 2001⟩ 1 m).owner_id = m.owner_id) ∧
    update_movie_router storeMovieRated 1 ⟨"t2", "d2", 2001⟩ rowAlice =
      (Except.ok updatedMovieOne, storeMovieUpdated) :=
  movie_update_frame storeMovieRated 1 ⟨"t2", "d2", 2001⟩ rowAlice
    updatedMovieOne storeMovieUpdated (by decide)

/-- A comment surviving the cascade expansion came from the input list. -/
theorem mem_of_mem_cascadeDeleteFuel :
    ∀ (fuel : Nat) (cs : List Comment) (roots : List Nat) (x : Comment),
      x ∈ cascadeDeleteFuel fuel cs roots → x ∈ cs := by
  intro fuel
  induction fuel with
  | zero => intro cs roots x hx; exact hx
  | succ fuel ih =>
    intro cs roots x hx
    rw [cascadeDeleteFuel] at hx
    by_cases hemp : (cs.filter (childOf roots)).isEmpty = true
    · rw [if_pos hemp] at hx
      exact List.mem_of_mem_filter hx
    · rw [if_neg hemp] at hx
      exact List.mem_of_mem_filter (ih _ _ x hx)

/-- A member of the reply subtree is a member of the list. -/
theorem inReplySubtree_mem {cs : List Comment} {roots : List Nat} {d : Comment}
    (h : InReplySubtree cs roots d) : d ∈ cs := by
  cases h with
  | base hd _ => exact hd
  | step _ hd _ => exact hd

/-- A direct reply of a root satisfies `childOf`. -/
theorem childOf_eq_true {roots : List Nat} {d : Comment} {r : Nat}
    (hrmem : r ∈ roots) (hpar : d.parent_id = some r) : childOf roots d = true := by
  simp only [childOf, hpar]
  exact List.elem_iff.mpr hrmem

/-- When a pass finds no direct reply, the reply subtree is empty. -/
theorem inReplySubtree_empty_children {cs : List Comment} {roots : List Nat}
    {d : Comment} (hemp : cs.filter (childOf roots) = [])
    (h : InReplySubtree cs roots d) : False := by
  induction h with
  | @base e he hr =>
    obtain ⟨r, hrmem, hpar⟩ := hr
    have hmem : e ∈ cs.filter (childOf roots) :=
      List.mem_filter.mpr ⟨he, childOf_eq_true hrmem hpar⟩
    simp [hemp] at hmem
  | step _ _ _ ih => exact ih

/-- A subtree member that is not itself a direct reply of the current roots
stays a subtree member after one cascade pass (its parent either was removed
in the pass — making it a direct reply of the new roots — or also
survives). -/
theorem inReplySubtree_transfer {cs : List Comment} {roots : List Nat} {d : Comment}
    (h : InReplySubtree cs roots d) :
    childOf roots d = false →
    InReplySubtree (cs.filter (fun x => !childOf roots x))
      (roots ++ (cs.filter (childOf roots)).map (fun c => c.id)) d := by
  induction h with
  | @base d hmem hr =>
    intro hd
    obtain ⟨r, hrmem, hpar⟩ := hr
    rw [childOf_eq_true hrmem hpar] at hd
    cases hd
  | @step p d hp hmem hpar ih =>
    intro hd
    have hdfil : d ∈ cs.filter (fun x => !childOf roots x) :=
      List.mem_filter.mpr ⟨hmem, by simp [hd]⟩
    by_cases hcp : childOf roots p = true
    · have hpfil : p ∈ cs.filter (childOf roots) :=
        List.mem_filter.mpr ⟨inReplySubtree_mem hp, hcp⟩
      refine InReplySubtree.base hdfil ⟨p.id, ?_, hpar⟩
      exact List.mem_append_right _ (List.mem_map.mpr ⟨p, hpfil, rfl⟩)
    · exact InReplySubtree.step (ih (Bool.eq_false_iff.mpr hcp)) hdfil hpar

/-- With fuel at least the list's length, the cascade expansion removes the
entire reply subtree. -/
theorem inReplySubtree_not_mem_cascadeDeleteFuel :
    ∀ (fuel : Nat) (cs : List Comment) (roots : List Nat) (d : Comment),
      cs.length ≤ fuel → InReplySubtree cs roots d →
      d ∉ cascadeDeleteFuel fuel cs roots := by
  intro fuel
  induction fuel with
  | zero =>
    intro cs roots d hlen h
    have hnil : cs = [] := List.eq_nil_of_length_eq_zero (Nat.le_zero.mp hlen)
    subst hnil
    exact absurd (inReplySubtree_mem h) (List.not_mem_nil d)
  | succ fuel ih =>
    intro cs roots d hlen h
    rw [cascadeDeleteFuel]
    by_cases hemp : (cs.filter (childOf roots)).isEmpty = true
    · exact absurd h (fun hh =>
        inReplySubtree_empty_children (List.isEmpty_iff.mp hemp) hh)
    · rw [if_neg hemp]
      by_cases hcd : childOf roots d = true
      · intro hmem
        have hrest := mem_of_mem_cascadeDeleteFuel fuel _ _ d hmem
        have hnot := List.of_mem_filter hrest
        rw [hcd] at hnot
        cases hnot
      · have hd' : childOf roots d = false := Bool.eq_false_iff.mpr hcd
        have hlen' : (cs.filter (fun x => !childOf roots x)).length ≤ fuel := by
          have hne : cs.filter (childOf roots) ≠ [] := fun hh =>
            hemp (List.isEmpty_iff.mpr hh)
          obtain ⟨x, hx⟩ := List.exists_mem_of_ne_nil _ hne
          have hx1 : childOf roots x = true := List.of_mem_filter hx
          have hlt : (cs.filter (fun x => !childOf roots x)).length < cs.length :=
            List.length_filter_lt_length_iff_exists.mpr
              ⟨x, List.mem_of_mem_filter hx, by simp [hx1]⟩
          omega
        exact ih _ _ d hlen' (inReplySubtree_transfer h hd')

/-- Dropping the rows whose primary key equals the deleted comment's id
either removes a subtree member outright (it shares the id) or keeps the
whole parent chain intact. -/
theorem inReplySubtree_filter_ne {cs : List Comment} {cid : Nat} {d : Comment}
    (h : InReplySubtree cs [cid] d) :
    d.id = cid ∨ InReplySubtree (cs.filter (fun x => x.id != cid)) [cid] d := by
  induction h with
  | @base d hmem hr =>
    obtain ⟨r, hrmem, hpar⟩ := hr
    have hr' : r = cid := by simpa using hrmem
    rw [hr'] at hpar
    by_cases hid : d.id = cid
    · exact Or.inl hid
    · exact Or.inr (InReplySubtree.base
        (List.mem_filter.mpr ⟨hmem, by simpa using hid⟩) ⟨cid, by simp, hpar⟩)
  | @step p d hp hmem hpar ih =>
    by_cases hid : d.id = cid
    · exact Or.inl hid
    · cases ih with
      | inl hpid =>
        exact Or.inr (InReplySubtree.base
          (List.mem_filter.mpr ⟨hmem, by simpa using hid⟩)
          ⟨cid, by simp, by rw [hpar, hpid]⟩)
      | inr hsub =>
        exact Or.inr (InReplySubtree.step hsub
          (List.mem_filter.mpr ⟨hmem, by simpa using hid⟩) hpar)

/-- Claim C5 (confirmed): deleting a comment removes it together with its
entire reply subtree — every comment reachable from it transitively through
`parent_id` — and a subsequent listing of comments, for that movie or any
other, contains none of them. -/
theorem comment_delete_cascades (db : Store) (c d : Comment)
    (hd : d.id = c.id ∨ InReplySubtree db.comments [c.id] d) :
    d ∉ (delete_comment db c).comments ∧
    ∀ movie_id : Nat, d ∉ get_movie_comments (delete_comment db c) movie_id := by
  have main : d ∉ (delete_comment db c).comments := by
    intro hmem
    have hmem' : d ∈ cascadeDeleteFuel (db.comments.filter (fun x => x.id != c.id)).length
        (db.comments.filter (fun x => x.id != c.id)) [c.id] := hmem
    have hfil : d ∈ db.comments.filter (fun x => x.id != c.id) :=
      mem_of_mem_cascadeDeleteFuel _ _ _ d hmem'
    have hne : d.id ≠ c.id := by simpa using List.of_mem_filter hfil
    cases hd with
    | inl h => exact hne h
    | inr h =>
      cases inReplySubtree_filter_ne h with
      | inl h' => exact hne h'
      | inr h' =>
        exact inReplySubtree_not_mem_cascadeDeleteFuel _ _ _ d (Nat.le_refl _) h' hmem'
  exact ⟨main, fun movie_id hmem => main (List.mem_of_mem_filter hmem)⟩

/-- Witness for claim C5: in the three-comment thread, deleting the root
removes the leaf, which is in the subtree only transitively (leaf → reply →
root), and the leaf appears in no subsequent comment listing. -/
theorem comment_delete_cascades_witness :
    threadLeaf ∉ (delete_comment storeThread threadRoot).comments ∧
    ∀ movie_id : Nat,
      threadLeaf ∉ get_movie_comments (delete_comment storeThread threadRoot) movie_id :=
  comment_delete_cascades storeThread threadRoot threadLeaf
    (Or.inr (InReplySubtree.step (p := threadReply)
      (InReplySubtree.base (by decide) ⟨1, by decide, by decide⟩)
      (by decide) (by decide)))

/-- Claim C6 counterexample: in a store where movie 1 carries a rating and a
comment, the owner's delete succeeds and the dependent rows survive — but
not "as orphans referencing the deleted movie id": the rows as they stood
(with `movie_id = some 1`) are gone from the store, replaced by de-associated
rows whose `movie_id` is NULL. -/
theorem movie_delete_fk_nulled_cex :
    (delete_movie storeMovieRated 1 rowAlice).1 = Except.ok "Movie deleted" ∧
    ratingOne.movie_id = some 1 ∧ commentOnMovie.movie_id = some 1 ∧
    ratingOne ∉ (delete_movie storeMovieRated 1 rowAlice).2.ratings ∧
    commentOnMovie ∉ (delete_movie storeMovieRated 1 rowAlice).2.comments ∧
    ({ ratingOne with movie_id := none } : Rating) ∈
      (delete_movie storeMovieRated 1 rowAlice).2.ratings ∧
    ({ commentOnMovie with movie_id := none } : Comment) ∈
      (delete_movie storeMovieRated 1 rowAlice).2.comments := by
  decide

/-- Claim C6 amended: a successful owner delete removes the movie row and
does not delete the dependent Rating and Comment rows — both tables keep
their length, and every row survives — but the rows referencing the deleted
movie are de-associated (their `movie_id` is set to NULL, SQLAlchemy's
default for a relationship with no delete cascade), so afterwards no rating
or comment references the deleted movie id. -/
theorem movie_delete_orphans_dependent_rows (db : Store) (movie_id : Nat)
    (requester : User) (dm : Movie)
    (hfind : db.movies.find? (fun m => m.id == movie_id) = some dm)
    (howner : dm.owner_id = requester.id) :
    (delete_movie db movie_id requester).1 = Except.ok "Movie deleted" ∧
    (delete_movie db movie_id requester).2.users = db.users ∧
    (delete_movie db movie_id requester).2.movies =
      db.movies.filter (fun m => m.id != movie_id) ∧
    (delete_movie db movie_id requester).2.ratings =
      db.ratings.map (fun r =>
        if r.movie_id == some movie_id then { r with movie_id := none } else r) ∧
    (delete_movie db movie_id requester).2.comments =
      db.comments.map (fun c =>
        if c.movie_id == some movie_id then { c with movie_id := none } else c) ∧
    (delete_movie db movie_id requester).2.ratings.length = db.ratings.length ∧
    (delete_movie db movie_id requester).2.comments.length = db.comments.length ∧
    (∀ r ∈ (delete_movie db movie_id requester).2.ratings,
      r.movie_id ≠ some movie_id) ∧
    (∀ c ∈ (delete_movie db movie_id requester).2.comments,
      c.movie_id ≠ some movie_id) := by
  have hres : delete_movie db movie_id requester =
      (Except.ok "Movie deleted",
        { db with
          movies := db.movies.filter (fun m => m.id != movie_id)
          ratings := db.ratings.map (fun r =>
            if r.movie_id == some movie_id then { r with movie_id := none } else r)
          comments := db.comments.map (fun c =>
            if c.movie_id == some movie_id then { c with movie_id := none } else c) }) := by
    simp [delete_movie, hfind, howner]
  rw [hres]
  refine ⟨rfl, rfl, rfl, rfl, rfl, by simp, by simp, ?_, ?_⟩
  · intro r hrm
    obtain ⟨r0, _, hr0⟩ := List.mem_map.mp hrm
    by_cases hc : r0.movie_id = some movie_id
    · rw [← hr0]; simp [hc]
    · rw [← hr0]; simp [hc]
  · intro c hcm
    obtain ⟨c0, _, hc0⟩ := List.mem_map.mp hcm
    by_cases hc : c0.movie_id = some movie_id
    · rw [← hc0]; simp [hc]
    · rw [← hc0]; simp [hc]

/-- Witness for the amended claim C6: the concrete rated movie store. -/
theorem movie_delete_orphans_dependent_rows_witness :
    (delete_movie storeMovieRated 1 rowAlice).1 = Except.ok "Movie deleted" ∧
    (delete_movie storeMovieRated 1 rowAlice).2.users = storeMovieRated.users ∧
    (delete_movie storeMovieRated 1 rowAlice).2.movies =
      storeMovieRated.movies.filter (fun m => m.id != 1) ∧
    (delete_movie storeMovieRated 1 rowAlice).2.ratings =
      storeMovieRated.ratings.map (fun r =>
        if r.movie_id == some 1 then { r with movie_id := none } else r) ∧
    (delete_movie storeMovieRated 1 rowAlice).2.comments =
      storeMovieRated.comments.map (fun c =>
        if c.movie_id == some 1 then { c with movie_id := none } else c) ∧
    (delete_movie storeMovieRated 1 rowAlice).2.ratings.length =
      storeMovieRated.ratings.length ∧
    (delete_movie storeMovieRated 1 rowAlice).2.comments.length =
      storeMovieRated.comments.length ∧
    (∀ r ∈ (delete_movie storeMovieRated 1 rowAlice).2.ratings,
      r.movie_id ≠ some 1) ∧
    (∀ c ∈ (delete_movie storeMovieRated 1 rowAlice).2.comments,
      c.movie_id ≠ some 1) :=
  movie_delete_orphans_dependent_rows storeMovieRated 1 rowAlice movieOne
    (by decide) (by decide)

/-- Claim C7 counterexample: with no movies in the store at all, the mounted
`POST /ratings/` endpoint accepts a rating for movie id 7 — it does not fail
NotFound and it creates a Rating row referencing the nonexistent movie.
(The unmounted router variant refuses, but with a 500, its 404 being
swallowed by its own catch-all.) -/
theorem rate_missing_movie_cex :
    storeNoMovies.movies = [] ∧
    (rate_movie storeNoMovies ⟨7, 5⟩ rowAlice).1 ≠
      Except.error ⟨404, "Movie not found"⟩ ∧
    (∃ r ∈ (rate_movie storeNoMovies ⟨7, 5⟩ rowAlice).2.ratings,
      r.movie_id = some 7) ∧
    rate_movie_router storeNoMovies 7 5 rowAlice =
      (Except.error ⟨500, "Internal Server Error"⟩, storeNoMovies) := by
  decide

/-- Claim C7 amended: the mounted rating-creation endpoint
(`src/app/main.py`) performs no movie-existence check and unconditionally
inserts the Rating row, even for a nonexistent movie id; the unmounted
router variant (`src/app/routers/movies.py`) does verify existence and
inserts no row for a missing movie, but reports the failure as a 500 (its
404 is converted by its catch-all), and inserts exactly when the movie
exists. -/
theorem rating_creation_paths (db : Store) (rc : RatingCreate)
    (movie_id : Nat) (value : Int) (u : User) :
    rate_movie db rc u =
      (Except.ok (newRating db rc u),
        { db with ratings := db.ratings ++ [newRating db rc u] }) ∧
    (match db.movies.find? (fun m => m.id == movie_id) with
     | none =>
       rate_movie_router db movie_id value u =
         (Except.error ⟨500, "Internal Server Error"⟩, db)
     | some _ =>
       rate_movie_router db movie_id value u =
         (Except.ok (newRating db ⟨movie_id, value⟩ u),
           { db with ratings := db.ratings ++ [newRating db ⟨movie_id, value⟩ u] })) := by
  refine ⟨rfl, ?_⟩
  cases hf : db.movies.find? (fun m => m.id == movie_id) with
  | none => simp [rate_movie_router, hf]
  | some dm => simp [rate_movie_router, hf]

/-- Claim C8 counterexample: `rowBob` renames to `rowAlice`'s username; the
self-update is refused with the store unchanged, but the status is 500
(the unique-constraint `IntegrityError` caught by the handler's
`except Exception`), not the Conflict (400) the claim states. -/
theorem self_update_conflict_cex :
    update_user_me storeTwoUsers rowBob ⟨"al", "bo@x"⟩ =
      (Except.error ⟨500, "Internal Server Error"⟩, storeTwoUsers) ∧
    ∀ d : String,
      (update_user_me storeTwoUsers rowBob ⟨"al", "bo@x"⟩).1 ≠
        Except.error ⟨400, d⟩ := by
  refine ⟨by decide, ?_⟩
  intro d h
  have h5 : (update_user_me storeTwoUsers rowBob ⟨"al", "bo@x"⟩).1 =
      Except.error ⟨500, "Internal Server Error"⟩ := by decide
  rw [h5] at h
  simp at h

/-- Claim C8 amended: the self-update endpoint performs no application-level
uniqueness re-check and never answers Conflict (400); when the new username
or email collides with another user the commit is rejected by the storage
layer's unique constraints and surfaces as a 500 with the store unchanged,
and when there is no collision exactly the requester's row is updated.
Consequently, username/email uniqueness across users (given distinct
primary keys) is preserved by every self-update. -/
theorem self_update_unique_constraint (db : Store) (current_user : User)
    (uu : UserUpdate) :
    (selfUpdateConflicts db current_user uu = true →
      update_user_me db current_user uu =
        (Except.error ⟨500, "Internal Server Error"⟩, db)) ∧
    (selfUpdateConflicts db current_user uu = false →
      update_user_me db current_user uu =
        (Except.ok { current_user with username := uu.username, email := uu.email },
          { db with users := db.users.map (fun x =>
              if x.id == current_user.id then
                { x with username := uu.username, email := uu.email }
              else x) })) ∧
    (∀ d : String,
      (update_user_me db current_user uu).1 ≠ Except.error ⟨400, d⟩) ∧
    (db.users.Pairwise (fun a b => a.id ≠ b.id) →
      db.users.Pairwise (fun a b => a.username ≠ b.username ∧ a.email ≠ b.email) →
      (update_user_me db current_user uu).2.users.Pairwise
        (fun a b => a.username ≠ b.username ∧ a.email ≠ b.email)) := by
  by_cases hc : selfUpdateConflicts db current_user uu = true
  · have hres : update_user_me db current_user uu =
        (Except.error ⟨500, "Internal Server Error"⟩, db) := by
      simp [update_user_me, hc]
    refine ⟨fun _ => hres, ?_, ?_, ?_⟩
    · intro hc'
      simp [hc] at hc'
    · intro d h
      rw [hres] at h
      simp at h
    · intro _ huniq
      rw [hres]
      exact huniq
  · have hcf : selfUpdateConflicts db current_user uu = false := Bool.eq_false_iff.mpr hc
    have hres : update_user_me db current_user uu =
        (Except.ok { current_user with username := uu.username, email := uu.email },
          { db with users := db.users.map (fun x =>
              if x.id == current_user.id then
                { x with username := uu.username, email := uu.email }
              else x) }) := by
      simp [update_user_me, hcf]
    refine ⟨?_, fun _ => hres, ?_, ?_⟩
    · intro hct
      simp [hcf] at hct
    · intro d h
      rw [hres] at h
      simp at h
    · intro hids huniq
      rw [hres]
      have hno : ∀ x ∈ db.users, x.id = current_user.id ∨
          (x.username ≠ uu.username ∧ x.email ≠ uu.email) := by
        intro x hx
        have hax := (List.any_eq_false.mp hcf) x hx
        by_cases hxid : x.id = current_user.id
        · exact Or.inl hxid
        · refine Or.inr ⟨fun he => hax ?_, fun he => hax ?_⟩
          · simp [hxid, he]
          · simp [hxid, he]
      rw [List.pairwise_map]
      refine List.Pairwise.imp_of_mem ?_ (hids.and huniq)
      intro a b ha hb hab
      by_cases haid : a.id = current_user.id <;> by_cases hbid : b.id = current_user.id
      · exact absurd (haid.trans hbid.symm) hab.1
      · rcases hno b hb with hbid' | ⟨hbu, hbe⟩
        · exact absurd hbid' hbid
        · simp only [haid, hbid, beq_self_eq_true, if_true]
          rw [if_neg (by simpa using hbid)]
          exact ⟨fun he => hbu he.symm, fun he => hbe he.symm⟩
      · rcases hno a ha with haid' | ⟨hau, hae⟩
        · exact absurd haid' haid
        · simp only [hbid, beq_self_eq_true, if_true]
          rw [if_neg (by simpa using haid)]
          exact ⟨fun he => hau he, fun he => hae he⟩
      · rw [if_neg (by simpa using haid), if_neg (by simpa using hbid)]
        exact hab.2

/-- Claim C9 (confirmed): the rating and comment listing endpoints filter
their table by `movie_id` with no movie-existence check: when no row
references the id — in particular when the movie itself does not exist —
they succeed with the empty list, and their result depends only on the
ratings (respectively comments) table, never on the movies table, so a
missing movie is indistinguishable from a movie with no ratings or
comments. -/
theorem listing_without_movie_check (db : Store) (movie_id : Nat)
    (hr : ∀ r ∈ db.ratings, r.movie_id ≠ some movie_id)
    (hc : ∀ c ∈ db.comments, c.movie_id ≠ some movie_id) :
    get_movie_ratings db movie_id = [] ∧
    get_movie_comments db movie_id = [] ∧
    (∀ db2 : Store, db2.ratings = db.ratings →
      get_movie_ratings db2 movie_id = get_movie_ratings db movie_id) ∧
    (∀ db2 : Store, db2.comments = db.comments →
      get_movie_comments db2 movie_id = get_movie_comments db movie_id) := by
  refine ⟨?_, ?_, ?_, ?_⟩
  · rw [get_movie_ratings, List.filter_eq_nil_iff]
    intro r hrm
    simpa using hr r hrm
  · rw [get_movie_comments, List.filter_eq_nil_iff]
    intro c hcm
    simpa using hc c hcm
  · intro db2 h2
    rw [get_movie_ratings, get_movie_ratings, h2]
  · intro db2 h2
    rw [get_movie_comments, get_movie_comments, h2]

/-- Witness for claim C9: a store whose only rating and comment reference
movie 2, queried for movie 1 (which does not exist in the movies table). -/
theorem listing_without_movie_check_witness :
    get_movie_ratings storeOtherRated 1 = [] ∧
    get_movie_comments storeOtherRated 1 = [] ∧
    (∀ db2 : Store, db2.ratings = storeOtherRated.ratings →
      get_movie_ratings db2 1 = get_movie_ratings storeOtherRated 1) ∧
    (∀ db2 : Store, db2.comments = storeOtherRated.comments →
      get_movie_comments db2 1 = get_movie_comments storeOtherRated 1) :=
  listing_without_movie_check storeOtherRated 1 (by decide) (by decide)

end MovieApi
